import Mathlib

/-
Verification of the simulation-control kernel of the flow repository.

The development shallowly embeds the Python sources
  flow/core/kernel/kernel.py
  flow/core/kernel/sim_control/base.py
  flow/core/kernel/sim_control/traci.py
as executable Lean definitions.  Stateful code is modelled by explicit
state passing; calls into the external world (process spawning, the TraCI
socket protocol, the external subsystem objects) are modelled by oracle
arguments supplying each call's outcome and by an event trace recording
the calls the kernel issues, in order.  Fallible Python code returns
`Except PyErr`.
-/

namespace FlowSpec

/-- Python exception values that the embedded code can raise or receive.
`fatalFlowError` embeds `flow.utils.exceptions.FatalFlowError` (the spec's
`ConfigurationError`); `nameError` embeds a Python `NameError` for an
unresolvable global name; `noneAttributeError` embeds the `AttributeError`
raised when an attribute is accessed on `None` (this is the error class the
spec calls `NotStartedError`: it is what using the kernel api before
`pass_api` produces); `typeErrorRaiseNone` embeds the `TypeError` of
`raise None`; `external` stands for an arbitrary error produced by the
external world (spawn failure, connection refused, ...). -/
inductive PyErr where
  | fatalFlowError (msg : String)
  | nameError (nm : String)
  | noneAttributeError (attr : String)
  | typeErrorRaiseNone
  | external (code : Nat)
deriving DecidableEq, Repr

/-- Subsystems aggregated by the `Kernel` facade of kernel.py: the
sim-control kernel, the simulation-metadata subsystem (`self.simulation`),
the vehicle subsystem and the traffic-light (traffic-control) subsystem. -/
inductive Subsys where
  | simControl
  | simulation
  | vehicle
  | trafficLight
deriving DecidableEq, Repr

/-- Classes importable in kernel.py's module namespace.  The import block
of kernel.py (lines 5-9) binds exactly the names listed in
`moduleGlobals` below; in particular it binds `TraCISimulation`,
not `TraCINetwork`. -/
inductive PyClass where
  | traciSimControl
  | traciSimulation
  | traciVehicle
  | traciTrafficLight
deriving DecidableEq, Repr

/-- Events recording, in order, the externally visible calls the embedded
code performs: constructing a subsystem object, storing the api on the
kernel, forwarding the api to a subsystem (`pass_api`), updating a
subsystem, closing a subsystem, entering the `try` block of one
`start_simulation` attempt, printing the start error, spawning the engine
process, connecting to the given port, setting the client order, issuing a
simulation step, invoking `teardown_sumo`, printing a teardown error, and
closing the protocol connection (`kernel_api.close()`). -/
inductive Ev where
  | construct (c : PyClass)
  | store
  | passApi (s : Subsys)
  | update (s : Subsys) (reset : Bool)
  | close (s : Subsys)
  | tryStart
  | errPrint
  | spawn (cmd : List String)
  | connect (port : Nat)
  | setOrder (n : Nat)
  | stepCmd
  | teardown
  | teardownErrPrint
  | apiClose
deriving DecidableEq, Repr

/-- Recognizer for process-spawn events. -/
def isSpawnEv : Ev → Bool
  | .spawn _ => true
  | _ => false

/-- Recognizer for attempt outcomes that produced a connection. -/
def isOkE : Except PyErr TraCIConn → Bool
  | Except.ok _ => true
  | Except.error _ => false

/-- Number of `setOrder` calls a trace records. -/
def countSetOrder : List Ev → Nat
  | [] => 0
  | Ev.setOrder _ :: rest => countSetOrder rest + 1
  | _ :: rest => countSetOrder rest

/-- Number of simulation-step commands a trace records. -/
def countStep : List Ev → Nat
  | [] => 0
  | Ev.stepCmd :: rest => countStep rest + 1
  | _ :: rest => countStep rest

/-- Name resolution in kernel.py's module namespace: exactly the four
class names bound by its import statements resolve; any other name is
unbound.  Mirrors kernel.py lines 5-9. -/
def moduleGlobals (n : String) : Option PyClass :=
  if n = "TraCISimControl" then some PyClass.traciSimControl
  else if n = "TraCISimulation" then some PyClass.traciSimulation
  else if n = "TraCIVehicle" then some PyClass.traciVehicle
  else if n = "TraCITrafficLight" then some PyClass.traciTrafficLight
  else none

/-- Evaluation of a sequence of constructor expressions `Name(...)`, as in
the body of `Kernel.__init__`'s `"traci"` branch: each name is resolved in
the module namespace; an unbound name raises `NameError` at its use site,
after the earlier constructors have already run. -/
def constructSeq : List String → List Ev × Except PyErr Unit
  | [] => ([], Except.ok ())
  | n :: rest =>
    match moduleGlobals n with
    | none => ([], Except.error (PyErr.nameError n))
    | some c =>
      let r := constructSeq rest
      (Ev.construct c :: r.1, r.2)

/-- Embedding of `Kernel.__init__` (kernel.py lines 51-75): for the
selector `"traci"` it evaluates, in order,
`TraCISimControl(self)`, `TraCINetwork(self, sim_addl_params)`,
`TraCIVehicle(self, sim_addl_params)`, `TraCITrafficLight(self)`;
for any other selector it raises
`FatalFlowError('Simulator type "<selector>" is not valid.')`.
The emitted trace records the constructor calls that actually run; none
of them spawns a process. -/
def Kernel.init (simInterface : String) : List Ev × Except PyErr Unit :=
  if simInterface = "traci" then
    constructSeq ["TraCISimControl", "TraCINetwork", "TraCIVehicle", "TraCITrafficLight"]
  else
    ([], Except.error (PyErr.fatalFlowError
      ("Simulator type \"" ++ simInterface ++ "\" is not valid.")))

/-- State of the live TraCI protocol session (the `kernel_api`): the
subscribed teleport-start-id-list of the current step.
Modelled from the spec: the TraCI library itself is external to the
repository; per the spec's protocol surface, the subscribed
`teleport-start-id-list` is the session value that
`simulation.getStartingTeleportNumber()` counts. -/
structure TraCIConn where
  teleportStartingList : List String
deriving DecidableEq, Repr

/-- Modelled from the spec: `getStartingTeleportNumber` of the external
TraCI api returns the subscribed teleport-start count for the current
step, i.e. the size of the teleport-start-id-list. -/
def getStartingTeleportNumber (c : TraCIConn) : Nat :=
  c.teleportStartingList.length

/-- State of a `TraCISimControl` instance: `kernel_api` is `None` until
`pass_api` stores a connection (base.py lines 18-38). -/
structure SimControlState where
  kernelApi : Option TraCIConn
deriving DecidableEq, Repr

/-- State of the `Kernel` facade: `self.kernel_api`, set to `None` in
`__init__` and assigned by `pass_api`. -/
structure KernelSt where
  kernelApi : Option TraCIConn
deriving DecidableEq, Repr

/-- Embedding of `Kernel.pass_api` (kernel.py lines 77-83): stores the
api on the kernel, then forwards it to `sim_control`, `simulation`,
`vehicle` and `traffic_light`, in that order. -/
def Kernel.pass_api (_k : KernelSt) (api : TraCIConn) : KernelSt × List Ev :=
  ({ kernelApi := some api },
   [Ev.store, Ev.passApi Subsys.simControl, Ev.passApi Subsys.simulation,
    Ev.passApi Subsys.vehicle, Ev.passApi Subsys.trafficLight])

/-- Embedding of `Kernel.update` (kernel.py lines 85-102): calls
`vehicle.update(reset)`, `traffic_light.update(reset)`,
`simulation.update(reset)`, `sim_control.update(reset)`, in that order,
passing the same `reset` flag to each. -/
def Kernel.update (reset : Bool) : List Ev :=
  [Ev.update Subsys.vehicle reset, Ev.update Subsys.trafficLight reset,
   Ev.update Subsys.simulation reset, Ev.update Subsys.simControl reset]

/-- Targets of the forwarding (`pass_api`) events of a trace, in order. -/
def fwdTargets (tr : List Ev) : List Subsys :=
  tr.filterMap (fun e => match e with | .passApi s => some s | _ => none)

/-- Targets of the update events of a trace, in order. -/
def updTargets (tr : List Ev) : List Subsys :=
  tr.filterMap (fun e => match e with | .update s _ => some s | _ => none)

/-- Reset flags carried by the update events of a trace, in order. -/
def updResets (tr : List Ev) : List Bool :=
  tr.filterMap (fun e => match e with | .update _ r => some r | _ => none)

/-- Fixed connection value used for concrete instantiations. -/
def conn₀ : TraCIConn := { teleportStartingList := [] }

/-- Embedding of `TraCISimControl.simulation_step` (traci.py lines 54-56):
`self.kernel_api.simulationStep()`.  When `kernel_api` is still `None`
(no successful start has passed a connection in), the attribute access on
`None` raises; otherwise the step command is issued. -/
def TraCISimControl.simulation_step (s : SimControlState) : Except PyErr (List Ev) :=
  match s.kernelApi with
  | none => Except.error (PyErr.noneAttributeError ("simulationStep"))
  | some _ => Except.ok [Ev.stepCmd]

/-- Embedding of `TraCISimControl.check_collision` (traci.py lines 66-68):
`return self.kernel_api.simulation.getStartingTeleportNumber() != 0`.
When `kernel_api` is `None` the attribute access raises. -/
def TraCISimControl.check_collision (s : SimControlState) : Except PyErr Bool :=
  match s.kernelApi with
  | none => Except.error (PyErr.noneAttributeError ("simulation"))
  | some api => Except.ok (getStartingTeleportNumber api != 0)

/-- Embedding of `TraCISimControl.close` (traci.py lines 62-64): the body
is exactly `self.kernel_api.close()`.  There is no `try`/`except` and no
process kill; an error raised by the connection close (supplied by the
oracle `apiCloseRes`) propagates to the caller. -/
def TraCISimControl.close (s : SimControlState) (apiCloseRes : Except PyErr Unit) :
    Except PyErr (List Ev) :=
  match s.kernelApi with
  | none => Except.error (PyErr.noneAttributeError ("close"))
  | some _ =>
    match apiCloseRes with
    | Except.ok _ => Except.ok [Ev.apiClose]
    | Except.error e => Except.error e

/-- Embedding of `Kernel.close` (kernel.py lines 104-107):
`self.simulation.close()` then `self.sim_control.close()`.  The
simulation-metadata subsystem's close is external; its outcome is the
oracle `simulationCloseRes`.  Neither call is wrapped in a handler, so an
error from either propagates. -/
def Kernel.close (simulationCloseRes : Except PyErr Unit) (s : SimControlState)
    (apiCloseRes : Except PyErr Unit) : Except PyErr (List Ev) :=
  match simulationCloseRes with
  | Except.error e => Except.error e
  | Except.ok _ =>
    match TraCISimControl.close s apiCloseRes with
    | Except.error e => Except.error e
    | Except.ok tr => Except.ok (Ev.close Subsys.simulation :: Ev.close Subsys.simControl :: tr)

/-- Additional simulation parameters consumed by `start_simulation`
(the `sim_addl_params` object).  Numeric step/teleport quantities are
modelled as rationals; `seed` and the optional fields are `Option`s,
mirroring their `None` defaults. -/
structure SimAddlParams where
  port : Nat
  numClients : Nat
  simStep : ℚ
  render : Bool
  noStepLog : Bool
  lateralResolution : Option ℚ
  emissionPath : Option String
  overtakeRight : Bool
  seed : Option Int
  printWarnings : Bool
  teleportTime : ℚ

/-- Simulation object handed to `start_simulation`: per base.py's
docstring it carries the path to the .sumo.cfg file (`cfg`) and a `name`
used for the emission output file. -/
structure SimulationObj where
  cfg : String
  name : String

/-- Textual rendering of a rational parameter, standing in for Python's
`str` on the numeric value.  Any injective rendering serves the claims;
an integral value prints without a denominator. -/
def pyStr (q : ℚ) : String :=
  if q.den = 1 then Int.repr q.num else Int.repr q.num ++ "/" ++ Nat.repr q.den

/-- Truncation toward zero of a rational, Python's `int(...)` conversion
applied to `teleport_time` in traci.py line 129. -/
def pyInt (q : ℚ) : Int :=
  if q.num < 0 then -(Int.ofNat (q.num.natAbs / q.den)) else Int.ofNat (q.num.natAbs / q.den)

/-- Embedding of `os.path.join(a, b)` for the two-argument uses in
traci.py: an absolute second component replaces the first, otherwise the
components are joined with a separator. -/
def pathJoin (a b : String) : String :=
  if b.data.head? = some '/' then b
  else if a = "" then b
  else if a.data.getLast? = some '/' then a ++ b
  else a ++ "/" ++ b

/-- Emission output file derived from the emission path and the
simulation name (traci.py lines 106-108). -/
def emissionOutOf (path : String) (sim : SimulationObj) : String :=
  pathJoin path (sim.name ++ "-emission.xml")

/-- Engine binary chosen by the render flag (traci.py lines 83-84). -/
def sumoBinary (render : Bool) : String :=
  if render then "sumo-gui" else "sumo"

/-- Embedding of the command-line construction of
`TraCISimControl.start_simulation` (traci.py lines 83-133): the base
call, then each conditionally appended flag group, then the always
appended teleport and junction-collision flags, in source order. -/
def sumoCall (sim : SimulationObj) (p : SimAddlParams) : List String :=
  [sumoBinary p.render, "-c", sim.cfg,
   "--remote-port", Nat.repr p.port,
   "--num-clients", Nat.repr p.numClients,
   "--step-length", pyStr p.simStep]
  ++ (if p.noStepLog then ["--no-step-log"] else [])
  ++ (match p.lateralResolution with
      | some r => ["--lateral-resolution", pyStr r]
      | none => [])
  ++ (match p.emissionPath with
      | some path => ["--emission-output", emissionOutOf path sim]
      | none => [])
  ++ (if p.overtakeRight then ["--lanechange.overtake-right", "true"] else [])
  ++ (match p.seed with
      | some s => ["--seed", Int.repr s]
      | none => [])
  ++ (if p.printWarnings then [] else ["--no-warnings", "true"])
  ++ ["--time-to-teleport", Int.repr (pyInt p.teleportTime),
      "--collision.check-junctions", "true"]

/-- Number of retries on restarting SUMO before giving up
(traci.py line 17). -/
def RETRIES_ON_ERROR : Nat := 10

/-- Python's `raise error` where `error` may still be `None`: raising
`None` is itself a `TypeError`. -/
def raiseOpt : Option PyErr → PyErr
  | some e => e
  | none => PyErr.typeErrorRaiseNone

/-- Embedding of `TraCISimControl.teardown_sumo` (traci.py lines
164-169): `os.killpg(self.sumo_proc.pid, signal.SIGTERM)` inside
`try ... except Exception as e: print(...)`.  The oracle `killpgRes` is
the outcome of the kill expression (it may fail because the process is
already dead or `sumo_proc` is still `None`); both branches return
normally, the failing one after printing, so the function never raises. -/
def TraCISimControl.teardown_sumo (killpgRes : Except PyErr Unit) : Except PyErr (List Ev) :=
  match killpgRes with
  | Except.ok _ => Except.ok [Ev.teardown]
  | Except.error _ => Except.ok [Ev.teardown, Ev.teardownErrPrint]

/-- Trace produced by a `teardown_sumo` call (it always returns one,
since the call never raises). -/
def teardownTrace (killpgRes : Except PyErr Unit) : List Ev :=
  match TraCISimControl.teardown_sumo killpgRes with
  | Except.ok tr => tr
  | Except.error _ => []

/-- Trace of one fully successful `start_simulation` attempt (traci.py
lines 144-157): the `try` block is entered, the engine is spawned with
the built command line, traci connects to the configured port, the
client order is set to 0 and one simulation step is issued before the
connection is returned. -/
def successTrace (call : List String) (port : Nat) : List Ev :=
  [Ev.tryStart, Ev.spawn call, Ev.connect port, Ev.setOrder 0, Ev.stepCmd]

/-- Embedding of the retry loop of `TraCISimControl.start_simulation`
(traci.py lines 77-162).  The oracle `att i` gives the outcome of the
`try` block of attempt `i` (a connection, or the exception the attempt
raised somewhere inside); `killRes i` gives the outcome of the kill
expression during the teardown that follows a failed attempt `i`.
Arguments: remaining loop iterations, index of the current attempt, and
the `error` variable accumulated so far.  After the last iteration the
captured error is re-raised unchanged. -/
def startLoop (att : Nat → Except PyErr TraCIConn) (killRes : Nat → Except PyErr Unit)
    (call : List String) (port : Nat) :
    Nat → Nat → Option PyErr → List Ev × Except PyErr TraCIConn
  | 0, _, lastErr => ([], Except.error (raiseOpt lastErr))
  | n + 1, i, _ =>
    match att i with
    | Except.ok c => (successTrace call port, Except.ok c)
    | Except.error e =>
      let td := teardownTrace (killRes i)
      let rest := startLoop att killRes call port n (i + 1) (some e)
      (Ev.tryStart :: Ev.errPrint :: (td ++ rest.1), rest.2)

/-- Embedding of `TraCISimControl.start_simulation` (traci.py lines
70-162): the loop body builds `sumoCall sim p`, spawns, connects to
`p.port`, and on failure tears down and retries, up to
`RETRIES_ON_ERROR` times, starting with `error = None`. -/
def TraCISimControl.start_simulation (att : Nat → Except PyErr TraCIConn)
    (killRes : Nat → Except PyErr Unit) (sim : SimulationObj) (p : SimAddlParams) :
    List Ev × Except PyErr TraCIConn :=
  startLoop att killRes (sumoCall sim p) p.port RETRIES_ON_ERROR 0 none

/-- Number of attempts a trace records: one `tryStart` event is emitted
each time the loop body's `try` block is entered. -/
def countTry : List Ev → Nat
  | [] => 0
  | Ev.tryStart :: rest => countTry rest + 1
  | _ :: rest => countTry rest

/-- Error value the loop re-raises after `n` consecutive failed attempts
beginning at attempt `i` with accumulated error `e₀`: the error of the
last attempt (or, for a zero-iteration loop, the `raise None` error). -/
def lastErrSpec (att : Nat → Except PyErr TraCIConn) (i : Nat) (e₀ : Option PyErr) :
    Nat → PyErr
  | 0 => raiseOpt e₀
  | m + 1 =>
    match att (i + m) with
    | Except.error e => e
    | Except.ok _ => raiseOpt none

/-- Events relevant to the attempt/teardown interleaving. -/
def keyEv (e : Ev) : Bool :=
  e == Ev.tryStart || e == Ev.teardown

/-- Strict alternation of `n` attempt starts each followed by one
teardown invocation. -/
def altList : Nat → List Ev
  | 0 => []
  | n + 1 => Ev.tryStart :: Ev.teardown :: altList n

/-- Adjacent-pair membership: `hasPair a b l` holds when `a` occurs in
`l` immediately followed by `b`. -/
def hasPair (a b : String) : List String → Bool
  | x :: y :: rest => (x == a && y == b) || hasPair a b (y :: rest)
  | _ => false

/-- Non-literal strings occurring as elements of `sumoCall sim p`: the
binary name, the cfg path and the rendered numeric parameters.  The
command line contains a given flag token only at its flag position
whenever none of these equals that token. -/
def freeStrings (sim : SimulationObj) (p : SimAddlParams) : List String :=
  [sumoBinary p.render, sim.cfg, Nat.repr p.port, Nat.repr p.numClients, pyStr p.simStep]
  ++ (match p.lateralResolution with | some r => [pyStr r] | none => [])
  ++ (match p.emissionPath with | some path => [emissionOutOf path sim] | none => [])
  ++ [Int.repr (pyInt p.teleportTime)]

/-- Benignity of a configuration with respect to the `--seed` token: no
free (non-flag) string of the built command line collides with the
literal token `--seed`. -/
def seedBenign (sim : SimulationObj) (p : SimAddlParams) : Prop :=
  ("--seed" : String) ∉ freeStrings sim p

instance (sim : SimulationObj) (p : SimAddlParams) : Decidable (seedBenign sim p) := by
  unfold seedBenign; infer_instance

/-- Oracle for which every attempt immediately succeeds. -/
def att₀ : Nat → Except PyErr TraCIConn := fun _ => Except.ok conn₀

/-- Oracle for which every kill expression succeeds. -/
def killRes₀ : Nat → Except PyErr Unit := fun _ => Except.ok ()

/-- Concrete simulation object used by witnesses. -/
def sim₀ : SimulationObj := { cfg := "net/ring.sumo.cfg", name := "ring" }

/-- Concrete parameter set with a seed configured and warnings off. -/
def p₀ : SimAddlParams :=
  { port := 8873, numClients := 1, simStep := 1, render := false, noStepLog := true,
    lateralResolution := none, emissionPath := none, overtakeRight := false,
    seed := some 42, printWarnings := false, teleportTime := 600 }

/-- Concrete parameter set with no seed configured. -/
def p₁ : SimAddlParams :=
  { port := 9000, numClients := 2, simStep := 1, render := true, noStepLog := false,
    lateralResolution := some 3, emissionPath := some "/tmp/out", overtakeRight := true,
    seed := none, printWarnings := true, teleportTime := 600 }

/-- C2: the claim says construction with the recognized selector
`"traci"` completes without raising, and that `ConfigurationError`
(FatalFlowError) is raised exactly for unrecognized selectors.  The code
is broken at the claimed point: kernel.py line 70 instantiates
`TraCINetwork`, a name its imports never bind (line 6 imports
`TraCISimulation` instead), so the `"traci"` branch raises `NameError`
after constructing only the sim-control kernel.  The unrecognized branch
does raise `FatalFlowError` with the formatted message, and neither
branch ever spawns a process. -/
theorem c2_traci_construction_raises :
    Kernel.init ("traci")
      = ([Ev.construct PyClass.traciSimControl], Except.error (PyErr.nameError ("TraCINetwork")))
    ∧ Kernel.init ("nonexistent")
      = ([], Except.error (PyErr.fatalFlowError ("Simulator type \"nonexistent\" is not valid.")))
    ∧ (Kernel.init ("traci")).1.countP isSpawnEv = 0
    ∧ (Kernel.init ("nonexistent")).1.countP isSpawnEv = 0 :=
  ⟨rfl, rfl, rfl, rfl⟩

/-- C3, counterexample: the claim states that `pass_api` forwards the
connection to the three state subsystems in the order vehicle,
traffic-control, simulation-metadata.  In kernel.py lines 77-83 the
forwarding order restricted to those three subsystems is
simulation-metadata, vehicle, traffic-control, so the claimed order is
refuted at a concrete call. -/
theorem c3_pass_api_counterexample :
    (fwdTargets ((Kernel.pass_api { kernelApi := none } conn₀).2)).filter
        (fun s => s != Subsys.simControl)
      ≠ [Subsys.vehicle, Subsys.trafficLight, Subsys.simulation] := by
  decide

/-- C3, amended: `Kernel.pass_api` stores the connection on the kernel
and forwards it to sim-control, simulation-metadata, vehicle and
traffic-control, in that fixed order. -/
theorem c3_pass_api_order (k : KernelSt) (api : TraCIConn) :
    (Kernel.pass_api k api).1.kernelApi = some api
    ∧ fwdTargets ((Kernel.pass_api k api).2)
      = [Subsys.simControl, Subsys.simulation, Subsys.vehicle, Subsys.trafficLight] :=
  ⟨rfl, rfl⟩

/-- C4, counterexample: the claim states that an error raised while
closing the protocol connection is logged and never propagated, and that
`SimControl.close` also kills the engine process.  In the code
(kernel.py lines 104-107, traci.py lines 62-64) a failing
`kernel_api.close()` propagates out of `Kernel.close`, and the
successful close trace contains no process-kill step. -/
theorem c4_close_counterexample :
    (Kernel.close (Except.ok ()) { kernelApi := some conn₀ }
        (Except.error (PyErr.external 7))).isOk = false
    ∧ Kernel.close (Except.ok ()) { kernelApi := some conn₀ } (Except.ok ())
      = Except.ok [Ev.close Subsys.simulation, Ev.close Subsys.simControl, Ev.apiClose]
    ∧ Ev.teardown ∉ [Ev.close Subsys.simulation, Ev.close Subsys.simControl, Ev.apiClose] :=
  ⟨rfl, rfl, by decide⟩

/-- C4, amended: on teardown `Kernel.close` calls the
simulation-metadata subsystem's close and then `SimControl`'s close,
each exactly once and in that order; `SimControl`'s close closes the
protocol connection only — it performs no process kill — and an error
raised by either close propagates unchanged to the caller. -/
theorem c4_close_order (simulationCloseRes : Except PyErr Unit) (s : SimControlState)
    (apiCloseRes : Except PyErr Unit) (api : TraCIConn) (h : s.kernelApi = some api) :
    (simulationCloseRes = Except.ok () → apiCloseRes = Except.ok () →
      Kernel.close simulationCloseRes s apiCloseRes
        = Except.ok [Ev.close Subsys.simulation, Ev.close Subsys.simControl, Ev.apiClose])
    ∧ (∀ e, simulationCloseRes = Except.ok () → apiCloseRes = Except.error e →
      Kernel.close simulationCloseRes s apiCloseRes = Except.error e)
    ∧ (∀ e, simulationCloseRes = Except.error e →
      Kernel.close simulationCloseRes s apiCloseRes = Except.error e) := by
  refine ⟨?_, ?_, ?_⟩
  · intro h1 h2
    subst h1; subst h2
    simp [Kernel.close, TraCISimControl.close, h]
  · intro e h1 h2
    subst h1; subst h2
    simp [Kernel.close, TraCISimControl.close, h]
  · intro e h1
    subst h1
    simp [Kernel.close]

/-- C4, witness for the amended theorem at a concrete state. -/
theorem c4_close_order_witness :
    Kernel.close (Except.ok ()) { kernelApi := some conn₀ } (Except.ok ())
      = Except.ok [Ev.close Subsys.simulation, Ev.close Subsys.simControl, Ev.apiClose]
    ∧ Kernel.close (Except.ok ()) { kernelApi := some conn₀ } (Except.error (PyErr.external 3))
      = Except.error (PyErr.external 3) :=
  ⟨(c4_close_order (Except.ok ()) { kernelApi := some conn₀ } (Except.ok ()) conn₀ rfl).1
      rfl rfl,
   (c4_close_order (Except.ok ()) { kernelApi := some conn₀ }
      (Except.error (PyErr.external 3)) conn₀ rfl).2.1 (PyErr.external 3) rfl rfl⟩

/-- C5: invoking `simulation_step` or `check_collision` before a
successful start has passed the connection in (`kernel_api` still
`None`) raises the use-before-start error — in the source, the
`AttributeError` of the `None` attribute access, the error class the
spec names `NotStartedError`. -/
theorem c5_step_before_start (s : SimControlState) (h : s.kernelApi = none) :
    TraCISimControl.simulation_step s
      = Except.error (PyErr.noneAttributeError ("simulationStep"))
    ∧ TraCISimControl.check_collision s
      = Except.error (PyErr.noneAttributeError ("simulation")) := by
  constructor <;>
    simp [TraCISimControl.simulation_step, TraCISimControl.check_collision, h]

/-- C5, witness at the freshly constructed (unstarted) state. -/
theorem c5_step_before_start_witness :
    TraCISimControl.simulation_step { kernelApi := none }
      = Except.error (PyErr.noneAttributeError ("simulationStep"))
    ∧ TraCISimControl.check_collision { kernelApi := none }
      = Except.error (PyErr.noneAttributeError ("simulation")) :=
  c5_step_before_start { kernelApi := none } rfl

/-- C7: after a start has completed (a connection is held),
`check_collision` returns true exactly when the subscribed
teleport-start count — the size of the teleport-start-id-list — is
nonzero, i.e. exactly when that list is non-empty. -/
theorem c7_check_collision (s : SimControlState) (api : TraCIConn)
    (h : s.kernelApi = some api) :
    ∃ b, TraCISimControl.check_collision s = Except.ok b
      ∧ (b = true ↔ api.teleportStartingList ≠ []) := by
  refine ⟨getStartingTeleportNumber api != 0, ?_, ?_⟩
  · simp [TraCISimControl.check_collision, h]
  · simp [getStartingTeleportNumber, List.length_eq_zero]

/-- C7, witness: with a one-element teleport-start list the collision
check reports true. -/
theorem c7_check_collision_witness :
    TraCISimControl.check_collision
        { kernelApi := some { teleportStartingList := ["veh3"] } }
      = Except.ok true := by
  obtain ⟨b, hb, hiff⟩ :=
    c7_check_collision { kernelApi := some { teleportStartingList := ["veh3"] } }
      { teleportStartingList := ["veh3"] } rfl
  have hbt : b = true := hiff.mpr (by decide)
  exact hbt ▸ hb

/-- C8: for either boolean value of `reset`, `Kernel.update` refreshes
the subsystems in the fixed order vehicle, traffic-control,
simulation-metadata, sim-control, passing the same `reset` value to each
of the four calls. -/
theorem c8_update_order (reset : Bool) :
    updTargets (Kernel.update reset)
      = [Subsys.vehicle, Subsys.trafficLight, Subsys.simulation, Subsys.simControl]
    ∧ updResets (Kernel.update reset) = [reset, reset, reset, reset] :=
  ⟨rfl, rfl⟩

/-- A failed attempt's header contributes exactly one attempt start. -/
theorem countTry_attempt_cons (l : List Ev) :
    countTry (Ev.tryStart :: Ev.errPrint :: l) = countTry l + 1 :=
  rfl

/-- Teardown traces contain no attempt starts. -/
theorem countTry_td_append (k : Except PyErr Unit) (l : List Ev) :
    countTry (teardownTrace k ++ l) = countTry l := by
  cases k <;> rfl

/-- Teardown traces contain no simulation-step commands. -/
theorem countStep_td_append (k : Except PyErr Unit) (l : List Ev) :
    countStep (teardownTrace k ++ l) = countStep l := by
  cases k <;> rfl

/-- Teardown traces contain no `setOrder` calls. -/
theorem countSetOrder_td_append (k : Except PyErr Unit) (l : List Ev) :
    countSetOrder (teardownTrace k ++ l) = countSetOrder l := by
  cases k <;> rfl

/-- Filtering a teardown trace to the key events keeps exactly the one
teardown invocation. -/
theorem filter_keyEv_td_append (k : Except PyErr Unit) (l : List Ev) :
    (teardownTrace k ++ l).filter keyEv = Ev.teardown :: l.filter keyEv := by
  cases k <;> rfl

/-- Loop characterization when the first `k` attempts starting at `i`
fail and attempt `i + k` yields a connection: the loop returns exactly
that connection and the trace records exactly `k + 1` attempts. -/
theorem startLoop_success (att : Nat → Except PyErr TraCIConn)
    (killRes : Nat → Except PyErr Unit) (call : List String) (port : Nat) :
    ∀ k n i e₀ c, k < n → (∀ j, j < k → isOkE (att (i + j)) = false) →
      att (i + k) = Except.ok c →
      (startLoop att killRes call port n i e₀).2 = Except.ok c
      ∧ countTry (startLoop att killRes call port n i e₀).1 = k + 1 := by
  intro k
  induction k with
  | zero =>
    intro n i e₀ c hk _ hok
    cases n with
    | zero => exact absurd hk (by omega)
    | succ m =>
      have h : att i = Except.ok c := by simpa using hok
      constructor
      · simp [startLoop, h]
      · simp only [startLoop, h]
        rfl
  | succ k ih =>
    intro n i e₀ c hk hfail hok
    cases n with
    | zero => exact absurd hk (by omega)
    | succ m =>
      have h0 : isOkE (att i) = false := by simpa using hfail 0 (by omega)
      cases hatt : att i with
      | ok v => rw [hatt] at h0; simp [isOkE] at h0
      | error e =>
        have hfail' : ∀ j, j < k → isOkE (att (i + 1 + j)) = false := by
          intro j hj
          have hx := hfail (j + 1) (by omega)
          have heq : i + (j + 1) = i + 1 + j := by omega
          rwa [heq] at hx
        have hok' : att (i + 1 + k) = Except.ok c := by
          have heq : i + (k + 1) = i + 1 + k := by omega
          rwa [heq] at hok
        have hrec := ih m (i + 1) (some e) c (by omega) hfail' hok'
        simp only [startLoop, hatt]
        exact ⟨hrec.1, by rw [countTry_attempt_cons, countTry_td_append, hrec.2]⟩

/-- Loop characterization when all `n` attempts starting at `i` fail:
the trace records exactly `n` attempts and the loop re-raises the error
captured from the last attempt. -/
theorem startLoop_allFail (att : Nat → Except PyErr TraCIConn)
    (killRes : Nat → Except PyErr Unit) (call : List String) (port : Nat) :
    ∀ n i e₀, (∀ j, j < n → isOkE (att (i + j)) = false) →
      (startLoop att killRes call port n i e₀).2
        = Except.error (lastErrSpec att i e₀ n)
      ∧ countTry (startLoop att killRes call port n i e₀).1 = n := by
  intro n
  induction n with
  | zero => intro i e₀ _; exact ⟨rfl, rfl⟩
  | succ m ih =>
    intro i e₀ hfail
    have h0 : isOkE (att i) = false := by simpa using hfail 0 (by omega)
    cases hatt : att i with
    | ok v => rw [hatt] at h0; simp [isOkE] at h0
    | error e =>
      have hfail' : ∀ j, j < m → isOkE (att (i + 1 + j)) = false := by
        intro j hj
        have hx := hfail (j + 1) (by omega)
        have heq : i + (j + 1) = i + 1 + j := by omega
        rwa [heq] at hx
      have hrec := ih (i + 1) (some e) hfail'
      have herr : lastErrSpec att (i + 1) (some e) m = lastErrSpec att i e₀ (m + 1) := by
        cases m with
        | zero => simp [lastErrSpec, raiseOpt, hatt]
        | succ m' =>
          have heq : i + 1 + m' = i + (m' + 1) := by omega
          simp only [lastErrSpec, heq]
      simp only [startLoop, hatt]
      exact ⟨by rw [hrec.1, herr], by rw [countTry_attempt_cons, countTry_td_append, hrec.2]⟩

/-- Key-event alternation of the loop trace: some number `f ≤ n` of
attempts failed, each immediately followed by exactly one teardown
invocation before anything else happens, with one final attempt start
and no teardown exactly when the loop returned a connection. -/
theorem startLoop_filter_keyEv (att : Nat → Except PyErr TraCIConn)
    (killRes : Nat → Except PyErr Unit) (call : List String) (port : Nat) :
    ∀ n i e₀, ∃ f, f ≤ n ∧
      (startLoop att killRes call port n i e₀).1.filter keyEv
        = altList f ++
          (if isOkE (startLoop att killRes call port n i e₀).2 then [Ev.tryStart] else []) := by
  intro n
  induction n with
  | zero => intro i e₀; exact ⟨0, Nat.le_refl 0, rfl⟩
  | succ m ih =>
    intro i e₀
    cases hatt : att i with
    | ok v =>
      refine ⟨0, by omega, ?_⟩
      simp only [startLoop, hatt]
      rfl
    | error e =>
      obtain ⟨f, hf, heq⟩ := ih (i + 1) (some e)
      refine ⟨f + 1, by omega, ?_⟩
      simp only [startLoop, hatt]
      have h1 : (Ev.tryStart :: Ev.errPrint ::
          (teardownTrace (killRes i)
            ++ (startLoop att killRes call port m (i + 1) (some e)).1)).filter keyEv
          = Ev.tryStart :: ((teardownTrace (killRes i)
            ++ (startLoop att killRes call port m (i + 1) (some e)).1).filter keyEv) := rfl
      rw [h1, filter_keyEv_td_append, heq]
      simp [altList]

/-- Trace shape of a loop run that returns a connection: the trace ends
with the successful attempt's spawn, connect, order assignment and
single step, and the whole trace contains exactly one step command and
one order assignment. -/
theorem startLoop_ok_trace (att : Nat → Except PyErr TraCIConn)
    (killRes : Nat → Except PyErr Unit) (call : List String) (port : Nat) :
    ∀ n i e₀ c, (startLoop att killRes call port n i e₀).2 = Except.ok c →
      (∃ pre, (startLoop att killRes call port n i e₀).1
          = pre ++ [Ev.spawn call, Ev.connect port, Ev.setOrder 0, Ev.stepCmd])
      ∧ countStep (startLoop att killRes call port n i e₀).1 = 1
      ∧ countSetOrder (startLoop att killRes call port n i e₀).1 = 1 := by
  intro n
  induction n with
  | zero => intro i e₀ c h; exact absurd h (by simp [startLoop])
  | succ m ih =>
    intro i e₀ c h
    cases hatt : att i with
    | ok v =>
      simp only [startLoop, hatt]
      exact ⟨⟨[Ev.tryStart], rfl⟩, rfl, rfl⟩
    | error e =>
      simp only [startLoop, hatt] at h ⊢
      obtain ⟨⟨pre, hpre⟩, hstep, hset⟩ := ih (i + 1) (some e) c h
      refine ⟨⟨Ev.tryStart :: Ev.errPrint :: (teardownTrace (killRes i) ++ pre), ?_⟩, ?_, ?_⟩
      · rw [hpre]
        simp
      · show countStep (Ev.tryStart :: Ev.errPrint :: (teardownTrace (killRes i)
          ++ (startLoop att killRes call port m (i + 1) (some e)).1)) = 1
        have h2 : countStep (Ev.tryStart :: Ev.errPrint :: (teardownTrace (killRes i)
            ++ (startLoop att killRes call port m (i + 1) (some e)).1))
            = countStep (teardownTrace (killRes i)
              ++ (startLoop att killRes call port m (i + 1) (some e)).1) := rfl
        rw [h2, countStep_td_append, hstep]
      · show countSetOrder (Ev.tryStart :: Ev.errPrint :: (teardownTrace (killRes i)
          ++ (startLoop att killRes call port m (i + 1) (some e)).1)) = 1
        have h2 : countSetOrder (Ev.tryStart :: Ev.errPrint :: (teardownTrace (killRes i)
            ++ (startLoop att killRes call port m (i + 1) (some e)).1))
            = countSetOrder (teardownTrace (killRes i)
              ++ (startLoop att killRes call port m (i + 1) (some e)).1) := rfl
        rw [h2, countSetOrder_td_append, hset]

/-- C1: for every attempt/kill oracle and every input, `start_simulation`
either returns a connection obtained on some attempt within the bound, or
performs exactly `RETRIES_ON_ERROR = 10` failed attempts and re-raises
precisely the error captured from the last attempt — never a wrapper in
its place. -/
theorem c1_start_retry_bound (att : Nat → Except PyErr TraCIConn)
    (killRes : Nat → Except PyErr Unit) (sim : SimulationObj) (p : SimAddlParams) :
    (∃ i c, i < RETRIES_ON_ERROR ∧ att i = Except.ok c
        ∧ (TraCISimControl.start_simulation att killRes sim p).2 = Except.ok c)
    ∨ ((∀ i, i < RETRIES_ON_ERROR → isOkE (att i) = false)
        ∧ countTry (TraCISimControl.start_simulation att killRes sim p).1 = RETRIES_ON_ERROR
        ∧ ∃ e, att (RETRIES_ON_ERROR - 1) = Except.error e
            ∧ (TraCISimControl.start_simulation att killRes sim p).2 = Except.error e) := by
  by_cases hsucc : ∃ i, i < RETRIES_ON_ERROR ∧ isOkE (att i) = true
  · left
    have hfind := Nat.find_spec hsucc
    have hmin : ∀ j, j < Nat.find hsucc → isOkE (att j) = false := by
      intro j hj
      have hnot := Nat.find_min hsucc hj
      have hj10 : j < RETRIES_ON_ERROR := lt_trans hj hfind.1
      simp only [hj10, true_and] at hnot
      exact Bool.not_eq_true _ ▸ eq_false_of_ne_true hnot
    obtain ⟨c, hc⟩ : ∃ c, att (Nat.find hsucc) = Except.ok c := by
      cases h : att (Nat.find hsucc) with
      | ok v => exact ⟨v, rfl⟩
      | error e => rw [h] at hfind; simp [isOkE] at hfind
    have hrun := startLoop_success att killRes (sumoCall sim p) p.port
      (Nat.find hsucc) RETRIES_ON_ERROR 0 none c hfind.1
      (fun j hj => by simpa using hmin j hj) (by simpa using hc)
    exact ⟨Nat.find hsucc, c, hfind.1, hc, hrun.1⟩
  · right
    push_neg at hsucc
    have hfail : ∀ i, i < RETRIES_ON_ERROR → isOkE (att i) = false := by
      intro i hi
      exact eq_false_of_ne_true (hsucc i hi)
    have hloop := startLoop_allFail att killRes (sumoCall sim p) p.port
      RETRIES_ON_ERROR 0 none (fun j hj => by simpa using hfail j hj)
    obtain ⟨e, he⟩ : ∃ e, att 9 = Except.error e := by
      have h9 := hfail 9 (by norm_num [RETRIES_ON_ERROR])
      cases h : att 9 with
      | ok v => rw [h] at h9; simp [isOkE] at h9
      | error e => exact ⟨e, rfl⟩
    refine ⟨hfail, hloop.2, e, he, ?_⟩
    have hlast : lastErrSpec att 0 none RETRIES_ON_ERROR = e := by
      show lastErrSpec att 0 none 10 = e
      simp [lastErrSpec, he]
    exact hloop.1.trans (congrArg Except.error hlast)

/-- C6: in `start_simulation`'s retry loop every failed attempt is
followed by exactly one `teardown_sumo` invocation before the next
attempt begins (the key-event projection of the trace strictly
alternates attempt start and teardown, with a final unmatched attempt
start exactly when a connection is returned); and `teardown_sumo` never
raises: whatever the outcome of the kill expression — including the
process being dead or absent — it returns normally, logging in the
failure case. -/
theorem c6_teardown_per_attempt (att : Nat → Except PyErr TraCIConn)
    (killRes : Nat → Except PyErr Unit) (sim : SimulationObj) (p : SimAddlParams) :
    (∃ f, f ≤ RETRIES_ON_ERROR ∧
      (TraCISimControl.start_simulation att killRes sim p).1.filter keyEv
        = altList f ++
          (if isOkE (TraCISimControl.start_simulation att killRes sim p).2
           then [Ev.tryStart] else []))
    ∧ (∀ k, ∃ tr, TraCISimControl.teardown_sumo k = Except.ok tr)
    ∧ TraCISimControl.teardown_sumo (Except.error (PyErr.external 0))
        = Except.ok [Ev.teardown, Ev.teardownErrPrint] := by
  refine ⟨?_, ?_, rfl⟩
  · exact startLoop_filter_keyEv att killRes (sumoCall sim p) p.port RETRIES_ON_ERROR 0 none
  · intro k
    cases k with
    | ok v => exact ⟨[Ev.teardown], rfl⟩
    | error e => exact ⟨[Ev.teardown, Ev.teardownErrPrint], rfl⟩

/-- C10: whenever `start_simulation` returns a connection, the trace ends
with the successful attempt's spawn of the built command line, the
connect to the configured port, the assignment of client order 0 and a
single simulation step — and the whole call issued exactly one step and
one order assignment before returning. -/
theorem c10_success_postlude (att : Nat → Except PyErr TraCIConn)
    (killRes : Nat → Except PyErr Unit) (sim : SimulationObj) (p : SimAddlParams)
    (c : TraCIConn)
    (h : (TraCISimControl.start_simulation att killRes sim p).2 = Except.ok c) :
    (∃ pre, (TraCISimControl.start_simulation att killRes sim p).1
        = pre ++ [Ev.spawn (sumoCall sim p), Ev.connect p.port, Ev.setOrder 0, Ev.stepCmd])
    ∧ countStep (TraCISimControl.start_simulation att killRes sim p).1 = 1
    ∧ countSetOrder (TraCISimControl.start_simulation att killRes sim p).1 = 1 :=
  startLoop_ok_trace att killRes (sumoCall sim p) p.port RETRIES_ON_ERROR 0 none c h

/-- C10, witness: with an oracle whose first attempt succeeds, the start
trace contains exactly one step command and one order assignment. -/
theorem c10_success_postlude_witness :
    countStep (TraCISimControl.start_simulation att₀ killRes₀ sim₀ p₀).1 = 1
    ∧ countSetOrder (TraCISimControl.start_simulation att₀ killRes₀ sim₀ p₀).1 = 1 :=
  ⟨(c10_success_postlude att₀ killRes₀ sim₀ p₀ conn₀ rfl).2.1,
   (c10_success_postlude att₀ killRes₀ sim₀ p₀ conn₀ rfl).2.2⟩

set_option maxHeartbeats 1600000 in
/-- C9: for every configuration, the engine command line built by
`start_simulation` contains the adjacent flag pairs `--remote-port`,
`--num-clients` and `--step-length` with the configuration's port,
client count and step length; contains the pair `--no-warnings true`
exactly when warnings are not requested; contains `--seed` with the
configured value whenever a seed is configured, and no `--seed` token at
all when none is (provided no free string of the configuration collides
with the literal token); and always ends with `--time-to-teleport`
carrying the teleport threshold truncated to an integer followed by
`--collision.check-junctions true`. -/
theorem c9_engine_cmdline (sim : SimulationObj) (p : SimAddlParams) :
    hasPair ("--remote-port") (Nat.repr p.port) (sumoCall sim p) = true
    ∧ hasPair ("--num-clients") (Nat.repr p.numClients) (sumoCall sim p) = true
    ∧ hasPair ("--step-length") (pyStr p.simStep) (sumoCall sim p) = true
    ∧ (hasPair ("--no-warnings") ("true") (sumoCall sim p) = true
        ↔ p.printWarnings = false)
    ∧ (∀ s, p.seed = some s → hasPair ("--seed") (Int.repr s) (sumoCall sim p) = true)
    ∧ (p.seed = none → seedBenign sim p → ("--seed") ∉ sumoCall sim p)
    ∧ (∃ pre, sumoCall sim p = pre ++ ["--time-to-teleport", Int.repr (pyInt p.teleportTime),
        "--collision.check-junctions", "true"]) := by
  obtain ⟨port, numClients, simStep, render, noStepLog, latRes, emPath, overtake,
    seed, printW, telT⟩ := p
  refine ⟨?_, ?_, ?_, ?_, ?_, ?_, ⟨_, rfl⟩⟩
  · simp [sumoCall, hasPair]
  · simp [sumoCall, hasPair]
  · simp [sumoCall, hasPair]
  · cases noStepLog <;> rcases latRes with _ | r <;> rcases emPath with _ | path <;>
      cases overtake <;> rcases seed with _ | s <;> cases printW <;>
      simp [sumoCall, hasPair]
  · intro s hs
    subst hs
    cases noStepLog <;> rcases latRes with _ | r <;> rcases emPath with _ | path <;>
      cases overtake <;> cases printW <;>
      simp [sumoCall, hasPair]
  · intro hs hben
    subst hs
    cases noStepLog <;> rcases latRes with _ | r <;> rcases emPath with _ | path <;>
      cases overtake <;> cases printW <;>
      (simp [seedBenign, freeStrings] at hben; simp [sumoCall, hben])

/-- C9, witness: a configuration with a seed and warnings off carries
the always-present and seed flags, and one without a seed yields no
`--seed` token. -/
theorem c9_engine_cmdline_witness :
    hasPair ("--remote-port") (Nat.repr p₀.port) (sumoCall sim₀ p₀) = true
    ∧ hasPair ("--seed") (Int.repr 42) (sumoCall sim₀ p₀) = true
    ∧ hasPair ("--no-warnings") ("true") (sumoCall sim₀ p₀) = true
    ∧ ("--seed") ∉ sumoCall sim₀ p₁ :=
  ⟨(c9_engine_cmdline sim₀ p₀).1,
   (c9_engine_cmdline sim₀ p₀).2.2.2.2.1 42 rfl,
   (c9_engine_cmdline sim₀ p₀).2.2.2.1.mpr rfl,
   (c9_engine_cmdline sim₀ p₁).2.2.2.2.2.1 rfl (by decide)⟩

end FlowSpec

